import Mathlib

/-!
Verification of the 6-core heterogeneous system's register-bank driver
(`hetero_regs.c`, version 0.3, in `src/driver_v3`) against its
natural-language specification.

The driver simulates a hardware register bank (IPI control, two mailbox
channels, a hardware-mutex register triple), a 32 KiB shared memory region,
and two deferred work items that model the remote cores' reaction to an
inter-processor interrupt.  We embed the register state as a record of
natural numbers (each field a 32-bit quantity, truncation written as
`% 2^32` where the C code can overflow), the shared memory as a byte
function, and each C operation as a pure state transformer.  The `jiffies`
clock read by the responder work items is passed in as an explicit `tick`
parameter.
-/

namespace Hetero

/-- 2^32, the modulus of the driver's 32-bit registers. -/
def UINT32_MOD : Nat := 4294967296

/-- Embedding of `struct hetero_hw_regs` (test_regs.c lines 266-292): the
packed register layout, one `Nat` per 32-bit field, plus the trailing byte
padding (modelled as a byte function, `u8 padding[4096 - 0x4C]`). -/
structure HeteroHwRegs where
  ipi_status : Nat
  ipi_trigger : Nat
  ipi_clear : Nat
  ipi_enable : Nat
  mbox_main_to_core0_cmd : Nat
  mbox_main_to_core0_data : Nat
  mbox_core0_to_main_status : Nat
  mbox_core0_to_main_resp : Nat
  mbox_main_to_core1_cmd : Nat
  mbox_main_to_core1_data : Nat
  mbox_core1_to_main_status : Nat
  mbox_core1_to_main_resp : Nat
  hw_mutex_request : Nat
  hw_mutex_status : Nat
  hw_mutex_release : Nat
  padding : Nat → Nat

/-- The all-zero register bank, the result of `memset(dev->regs, 0, ...)`. -/
def zeroRegs : HeteroHwRegs :=
  { ipi_status := 0, ipi_trigger := 0, ipi_clear := 0, ipi_enable := 0
  , mbox_main_to_core0_cmd := 0, mbox_main_to_core0_data := 0
  , mbox_core0_to_main_status := 0, mbox_core0_to_main_resp := 0
  , mbox_main_to_core1_cmd := 0, mbox_main_to_core1_data := 0
  , mbox_core1_to_main_status := 0, mbox_core1_to_main_resp := 0
  , hw_mutex_request := 0, hw_mutex_status := 0, hw_mutex_release := 0
  , padding := fun _ => 0 }

/-- Embedding of `struct hetero_device`: the register bank, the shared
memory region (byte index to byte value), and the two atomic counters. -/
structure HeteroDevice where
  regs : HeteroHwRegs
  shared_mem : Nat → Nat
  ipi_count : Nat
  msg_count : Nat

/-- The identification string `hetero_init` sprintf-writes into the shared
memory region (test_regs.c line 521). -/
def shared_banner : String := "6-Core Heterogeneous System Shared Memory\n"

/-- Byte values of the identification string (all ASCII). -/
def bannerBytes : List Nat := shared_banner.toList.map Char.toNat

/-- Shared memory contents after `hetero_init`: `memset(0)` over the whole
region followed by `sprintf` of the banner at offset 0 (the terminating NUL
coincides with the memset background of zero). -/
def init_shared_mem : Nat → Nat := fun i => bannerBytes.getD i 0

/-- Register defaults set by `hetero_init` (test_regs.c lines 512-513)
after zeroing the whole memory block: `ipi_enable = 0x03`,
`hw_mutex_status = 0xFFFF`. -/
def initRegs : HeteroHwRegs :=
  { zeroRegs with ipi_enable := 0x03, hw_mutex_status := 0xFFFF }

/-- Device state at the end of a successful `hetero_init`: zeroed memory,
register defaults, banner in shared memory, both counters zero. -/
def initDevice : HeteroDevice :=
  { regs := initRegs, shared_mem := init_shared_mem
  , ipi_count := 0, msg_count := 0 }

/-- Embedding of the register writes of the `HETERO_IOC_SEND_IPI` ioctl
case (test_regs.c lines 436-439): `ipi_trigger = (1 << core_id)` (plain
assignment), `ipi_status |= (1 << core_id)`, `atomic_inc(&ipi_count)`. -/
def send_ipi (core_id : Nat) (d : HeteroDevice) : HeteroDevice :=
  { d with
    regs := { d.regs with
      ipi_trigger := (1 <<< core_id) % UINT32_MOD
    , ipi_status := d.regs.ipi_status ||| ((1 <<< core_id) % UINT32_MOD) }
  , ipi_count := d.ipi_count + 1 }

/-- Result of the `HETERO_IOC_SEND_IPI` ioctl case: the `long` return
value, which responder work item (if any) was scheduled, and the new
device state. -/
structure SendIpiResult where
  ret : Int
  scheduled : Option Nat
  dev : HeteroDevice

/-- Embedding of the full `HETERO_IOC_SEND_IPI` case of `hetero_ioctl`
(test_regs.c lines 430-447): unconditionally performs the register writes
and counter increment of `send_ipi`, schedules `core0_work` when
`core_id == 0`, `core1_work` when `core_id == 1`, nothing otherwise, and
returns 0. -/
def ioctl_send_ipi (core_id : Nat) (d : HeteroDevice) : SendIpiResult :=
  { ret := 0
  , scheduled := if core_id = 0 then some 0
                 else if core_id = 1 then some 1
                 else none
  , dev := send_ipi core_id d }

/-- Embedding of the `HETERO_IOC_RESET` ioctl case (test_regs.c lines
449-454): `memset(dev->regs, 0, sizeof(struct hetero_hw_regs))` and both
counters set to 0.  Shared memory is untouched. -/
def hetero_reset (d : HeteroDevice) : HeteroDevice :=
  { d with regs := zeroRegs, ipi_count := 0, msg_count := 0 }

/-- Embedding of `core0_response_work` (test_regs.c lines 317-357), the
simulated I/O core: if the pending command is non-zero, compute the
response (`0x0001 -> 0x8001`; `0x0010 -> 0x8010 | (jiffies & 0xFF)`;
otherwise `0xFFFF`), clear the command, set the status word to 1; in all
cases clear bit 0 of `ipi_status` (`&= ~0x01`, i.e. `&&& 0xFFFFFFFE`).
`jiffies` is modelled by the `tick` parameter. -/
def core0_response_work (tick : Nat) (d : HeteroDevice) : HeteroDevice :=
  let cmd := d.regs.mbox_main_to_core0_cmd
  if cmd ≠ 0 then
    let resp : Nat :=
      if cmd = 0x0001 then 0x8001
      else if cmd = 0x0010 then 0x8010 ||| (tick &&& 0xFF)
      else 0xFFFF
    { d with regs := { d.regs with
        mbox_core0_to_main_resp := resp
      , mbox_main_to_core0_cmd := 0
      , mbox_core0_to_main_status := 1
      , ipi_status := d.regs.ipi_status &&& 0xFFFFFFFE } }
  else
    { d with regs := { d.regs with
        ipi_status := d.regs.ipi_status &&& 0xFFFFFFFE } }

/-- Embedding of `core1_response_work` (test_regs.c lines 360-372), the
simulated real-time core: unconditionally (the pending command is never
read) write `0x5200 | (jiffies & 0xFF)` into the channel-1 response
register, set the status word to 1, and clear bit 1 of `ipi_status`
(`&= ~0x02`, i.e. `&&& 0xFFFFFFFD`). -/
def core1_response_work (tick : Nat) (d : HeteroDevice) : HeteroDevice :=
  { d with regs := { d.regs with
      mbox_core1_to_main_resp := 0x5200 ||| (tick &&& 0xFF)
    , mbox_core1_to_main_status := 1
    , ipi_status := d.regs.ipi_status &&& 0xFFFFFFFD } }

/-- Dispatch the responder work item of a channel (channel 0 = I/O core,
anything else reaches the channel-1 work item, matching the scheduling in
`hetero_ioctl` where only ids 0 and 1 schedule any work at all). -/
def responder_work (c tick : Nat) (d : HeteroDevice) : HeteroDevice :=
  if c = 0 then core0_response_work tick d else core1_response_work tick d

/-- The mailbox write sequence of `send_message(channel, cmd, data)`
(user side, test_regs.c lines 134-135 for channel 0: data word first, then
the command word, each a 32-bit store into the channel's registers). -/
def send_message (c cmd data : Nat) (d : HeteroDevice) : HeteroDevice :=
  if c = 0 then
    { d with regs := { d.regs with
        mbox_main_to_core0_data := data % UINT32_MOD
      , mbox_main_to_core0_cmd := cmd % UINT32_MOD } }
  else
    { d with regs := { d.regs with
        mbox_main_to_core1_data := data % UINT32_MOD
      , mbox_main_to_core1_cmd := cmd % UINT32_MOD } }

/-- Channel-indexed read of the core-to-main status register. -/
def mbox_status (c : Nat) (d : HeteroDevice) : Nat :=
  if c = 0 then d.regs.mbox_core0_to_main_status
  else d.regs.mbox_core1_to_main_status

/-- Channel-indexed read of the core-to-main response register. -/
def mbox_resp (c : Nat) (d : HeteroDevice) : Nat :=
  if c = 0 then d.regs.mbox_core0_to_main_resp
  else d.regs.mbox_core1_to_main_resp

/-- Register space size, `REG_SPACE_SIZE` (4 KiB). -/
def REG_SPACE_SIZE : Nat := 4096

/-- Shared memory size, `SHARED_MEM_SIZE` (32 KiB). -/
def SHARED_MEM_SIZE : Nat := 32 * 1024

/-- Offset of the shared memory region inside the combined mapped block:
`hdev->shared_mem = hdev->mem_base + REG_SPACE_SIZE` (test_regs.c line
506). -/
def shared_mem_offset : Nat := REG_SPACE_SIZE

/-- The named 32-bit fields of `struct hetero_hw_regs`, in a layout-free
enumeration. -/
inductive RegField where
  | ipi_status | ipi_trigger | ipi_clear | ipi_enable
  | mbox_main_to_core0_cmd | mbox_main_to_core0_data
  | mbox_core0_to_main_status | mbox_core0_to_main_resp
  | mbox_main_to_core1_cmd | mbox_main_to_core1_data
  | mbox_core1_to_main_status | mbox_core1_to_main_resp
  | hw_mutex_request | hw_mutex_status | hw_mutex_release
  deriving DecidableEq

/-- Width in bytes of each register field: all are `u32`. -/
def fieldWidth (_ : RegField) : Nat := 4

/-- Declaration order of the fields in the packed `struct hetero_hw_regs`
(test_regs.c lines 266-292). -/
def structOrder : List RegField :=
  [ .ipi_status, .ipi_trigger, .ipi_clear, .ipi_enable
  , .mbox_main_to_core0_cmd, .mbox_main_to_core0_data
  , .mbox_core0_to_main_status, .mbox_core0_to_main_resp
  , .mbox_main_to_core1_cmd, .mbox_main_to_core1_data
  , .mbox_core1_to_main_status, .mbox_core1_to_main_resp
  , .hw_mutex_request, .hw_mutex_status, .hw_mutex_release ]

/-- Byte offset of a field in a packed sequence of fields: the sum of the
widths of the fields declared before it (the struct is
`__attribute__((packed))`, so there is no inserted alignment padding). -/
def offsetOf : List RegField → RegField → Nat
  | [], _ => 0
  | g :: rest, f => if f = g then 0 else fieldWidth g + offsetOf rest f

/-- Modelled from the spec: the hardware-mutex arbiter of §4.4.  The
arbiter logic itself — the hardware that reacts to writes of
`hw_mutex_request` by updating `hw_mutex_status` — is not under `src/`;
the repository's `src/` holds only the register declarations
(`struct hetero_hw_regs`) and a user-space caller that pokes the
registers.  Per the spec: `request(maskBits)`: for each requested bit that
is currently free (1), atomically clear it (mark held) and report success
for that bit; bits already held are reported as contended.  Returns the
pair (acquired bit mask, new status mask); the contended bits are the
requested bits absent from the acquired mask. -/
def mutex_request_op (mask status : Nat) : Nat × Nat :=
  let acquired := mask &&& status
  (acquired, status ^^^ acquired)

/-- Modelled from the spec: `release(maskBits)` of §4.4 atomically sets
the requested bits back to free (1) regardless of whether the releasing
party was the original holder — no ownership tracking is performed. -/
def mutex_release_op (mask status : Nat) : Nat :=
  status ||| mask

set_option maxRecDepth 4000 in
/-- Every value of the form `0x5200 | t` with `t < 256` (the channel-1
responder's response) differs from both `0x8001` (PONG) and `0xFFFF`
(unknown-command marker). -/
theorem or5200_ne_markers : ∀ t < 256, 0x5200 ||| t ≠ 0x8001 ∧ 0x5200 ||| t ≠ 0xFFFF := by
  decide

set_option maxRecDepth 4000 in
/-- Every value of the form `0x8010 | t` with `t < 256` (the channel-0
STATUS response) has `0x8000` above its low byte and zero high 16 bits. -/
theorem or8010_bounds :
    ∀ t < 256, (0x8010 ||| t) &&& 0xFFFFFF00 = 0x8000 ∧ (0x8010 ||| t) >>> 16 = 0 := by
  decide

/-- Masking with `0xFF` yields a value below 256. -/
theorem and_ff_lt (tick : Nat) : tick &&& 0xFF < 256 := by
  have h : tick &&& 0xFF ≤ 0xFF := Nat.and_le_right
  omega

/-- C1: after `send_message(c, 0x0001, data)`, `send_ipi(c)` and the run
of channel c's responder work, the status word is non-zero for both
channels, but only channel 0 responds `0x8001`; the channel-1 responder
never reads the command and instead writes `0x5200 | (tick & 0xFF)`,
which is never `0x8001`. -/
theorem C1_amended_ping_both_channels (d : HeteroDevice) (data tick : Nat) :
    ((core0_response_work tick (send_ipi 0 (send_message 0 0x0001 data d))).regs.mbox_core0_to_main_status = 1 ∧
     (core0_response_work tick (send_ipi 0 (send_message 0 0x0001 data d))).regs.mbox_core0_to_main_resp = 0x8001) ∧
    ((core1_response_work tick (send_ipi 1 (send_message 1 0x0001 data d))).regs.mbox_core1_to_main_status = 1 ∧
     (core1_response_work tick (send_ipi 1 (send_message 1 0x0001 data d))).regs.mbox_core1_to_main_resp = 0x5200 ||| (tick &&& 0xFF) ∧
     (core1_response_work tick (send_ipi 1 (send_message 1 0x0001 data d))).regs.mbox_core1_to_main_resp ≠ 0x8001) := by
  refine ⟨⟨rfl, rfl⟩, rfl, rfl, ?_⟩
  have h := (or5200_ne_markers (tick &&& 0xFF) (and_ff_lt tick)).1
  exact h

/-- C1 counterexample: from the freshly initialized device, sending PING
(`0x0001`) on channel 1 and running its responder yields response
`0x5200` (at tick 0), not `0x8001` as the claim requires for every valid
channel. -/
theorem C1_counterexample :
    mbox_resp 1 (core1_response_work 0 (send_ipi 1 (send_message 1 0x0001 0x12345678 initDevice))) = 0x5200 ∧
    (0x5200 : Nat) ≠ 0x8001 := by
  decide

/-- C5: a pending command outside {0, 0x0001, 0x0010} yields response
`0xFFFF` on channel 0 only; the channel-1 responder ignores the pending
command entirely and writes `0x5200 | (tick & 0xFF)`. -/
theorem C5_amended_unknown_command (d : HeteroDevice) (tick : Nat)
    (h0 : d.regs.mbox_main_to_core0_cmd ≠ 0)
    (h1 : d.regs.mbox_main_to_core0_cmd ≠ 0x0001)
    (h2 : d.regs.mbox_main_to_core0_cmd ≠ 0x0010) :
    (core0_response_work tick d).regs.mbox_core0_to_main_resp = 0xFFFF ∧
    (core1_response_work tick d).regs.mbox_core1_to_main_resp = 0x5200 ||| (tick &&& 0xFF) := by
  constructor
  · simp [core0_response_work, h0, h1, h2]
  · rfl

/-- C5 witness: concrete run with pending command `0x1234` on channel 0
and tick 5. -/
theorem C5_amended_witness :
    (core0_response_work 5 (send_message 0 0x1234 0 initDevice)).regs.mbox_core0_to_main_resp = 0xFFFF ∧
    (core1_response_work 5 (send_message 0 0x1234 0 initDevice)).regs.mbox_core1_to_main_resp = 0x5200 ||| (5 &&& 0xFF) :=
  C5_amended_unknown_command (send_message 0 0x1234 0 initDevice) 5
    (by decide) (by decide) (by decide)

/-- C5 counterexample: command `0x0777` pending in channel 1's mailbox
when its responder runs produces response `0x5200` (tick 0), not the
claimed `0xFFFF`. -/
theorem C5_counterexample :
    mbox_resp 1 (core1_response_work 0 (send_message 1 0x0777 0 initDevice)) = 0x5200 ∧
    (0x5200 : Nat) ≠ 0xFFFF := by
  decide

/-- C7: processing a pending `0x0010` yields response
`0x8010 | (tick & 0xFF)`: masking out the low byte leaves `0x8000`
(bits 8-15 are `0x80`), and the high 16 bits are zero — not `0x8010` as
the claim states. -/
theorem C7_amended_status_response (d : HeteroDevice) (tick : Nat)
    (h : d.regs.mbox_main_to_core0_cmd = 0x0010) :
    (core0_response_work tick d).regs.mbox_core0_to_main_resp = 0x8010 ||| (tick &&& 0xFF) ∧
    (core0_response_work tick d).regs.mbox_core0_to_main_resp &&& 0xFFFFFF00 = 0x8000 ∧
    (core0_response_work tick d).regs.mbox_core0_to_main_resp >>> 16 = 0 := by
  have hr : (core0_response_work tick d).regs.mbox_core0_to_main_resp
      = 0x8010 ||| (tick &&& 0xFF) := by
    simp [core0_response_work, h]
  refine ⟨hr, ?_, ?_⟩
  · rw [hr]; exact (or8010_bounds (tick &&& 0xFF) (and_ff_lt tick)).1
  · rw [hr]; exact (or8010_bounds (tick &&& 0xFF) (and_ff_lt tick)).2

/-- C7 witness: concrete run with pending command `0x0010` and tick 7. -/
theorem C7_amended_witness :
    (core0_response_work 7 (send_message 0 0x0010 0 initDevice)).regs.mbox_core0_to_main_resp = 0x8010 ||| (7 &&& 0xFF) ∧
    (core0_response_work 7 (send_message 0 0x0010 0 initDevice)).regs.mbox_core0_to_main_resp &&& 0xFFFFFF00 = 0x8000 ∧
    (core0_response_work 7 (send_message 0 0x0010 0 initDevice)).regs.mbox_core0_to_main_resp >>> 16 = 0 :=
  C7_amended_status_response (send_message 0 0x0010 0 initDevice) 7 (by decide)

/-- C7 counterexample: at tick 0 the `0x0010` response is `0x8010`, whose
high 16 bits are 0, not `0x8010`. -/
theorem C7_counterexample :
    (core0_response_work 0 (send_message 0 0x0010 0 initDevice)).regs.mbox_core0_to_main_resp >>> 16 = 0 ∧
    (0 : Nat) ≠ 0x8010 := by
  decide

/-- C2: the reset ioctl zeroes the whole register bank and both counters
and leaves shared memory alone; in particular `ipi_enable` and
`hw_mutex_status` end up 0 — the init-time defaults `0x3` / `0xFFFF` are
not restored by reset. -/
theorem C2_amended_reset_zeroes_all (d : HeteroDevice) :
    (hetero_reset d).regs = zeroRegs ∧
    (hetero_reset d).regs.ipi_enable = 0 ∧
    (hetero_reset d).regs.hw_mutex_status = 0 ∧
    (hetero_reset d).ipi_count = 0 ∧
    (hetero_reset d).msg_count = 0 ∧
    (hetero_reset d).shared_mem = d.shared_mem :=
  ⟨rfl, rfl, rfl, rfl, rfl, rfl⟩

/-- C2 counterexample: resetting the freshly initialized device leaves
`ipi_enable = 0` (not the claimed default `0x3`) and
`hw_mutex_status = 0` (not the claimed default `0xFFFF`). -/
theorem C2_counterexample :
    (hetero_reset initDevice).regs.ipi_enable = 0 ∧ (0 : Nat) ≠ 0x3 ∧
    (hetero_reset initDevice).regs.hw_mutex_status = 0 ∧ (0 : Nat) ≠ 0xFFFF := by
  decide

/-- C3: the SEND_IPI ioctl performs no channel validation: for any
channel id outside {0,1} it still returns 0 (success), writes
`1 << id` into `ipi_trigger`, ORs the bit into `ipi_status` and
increments `ipi_count`; the only difference is that no responder work is
scheduled. -/
theorem C3_amended_no_validation (core_id : Nat) (d : HeteroDevice)
    (h0 : core_id ≠ 0) (h1 : core_id ≠ 1) :
    (ioctl_send_ipi core_id d).ret = 0 ∧
    (ioctl_send_ipi core_id d).scheduled = none ∧
    (ioctl_send_ipi core_id d).dev.regs.ipi_trigger = (1 <<< core_id) % UINT32_MOD ∧
    (ioctl_send_ipi core_id d).dev.regs.ipi_status
      = d.regs.ipi_status ||| ((1 <<< core_id) % UINT32_MOD) ∧
    (ioctl_send_ipi core_id d).dev.ipi_count = d.ipi_count + 1 := by
  refine ⟨rfl, ?_, rfl, rfl, rfl⟩
  simp [ioctl_send_ipi, h0, h1]

/-- C3 witness: concrete invalid channel id 2 on the initialized
device. -/
theorem C3_amended_witness :
    (ioctl_send_ipi 2 initDevice).ret = 0 ∧
    (ioctl_send_ipi 2 initDevice).scheduled = none ∧
    (ioctl_send_ipi 2 initDevice).dev.regs.ipi_trigger = (1 <<< 2) % UINT32_MOD ∧
    (ioctl_send_ipi 2 initDevice).dev.regs.ipi_status
      = initDevice.regs.ipi_status ||| ((1 <<< 2) % UINT32_MOD) ∧
    (ioctl_send_ipi 2 initDevice).dev.ipi_count = initDevice.ipi_count + 1 :=
  C3_amended_no_validation 2 initDevice (by decide) (by decide)

/-- C3 counterexample: channel id 2 (invalid per the claim) is not
rejected: the ioctl returns 0 and has already set `ipi_trigger = 4`,
`ipi_status = 4` and `ipi_count = 1` — registers and counter are modified
and no error is reported. -/
theorem C3_counterexample :
    (ioctl_send_ipi 2 initDevice).ret = 0 ∧
    (ioctl_send_ipi 2 initDevice).dev.regs.ipi_trigger = 4 ∧
    (ioctl_send_ipi 2 initDevice).dev.regs.ipi_status = 4 ∧
    (ioctl_send_ipi 2 initDevice).dev.ipi_count = 1 := by
  decide

/-- C4: bit-level contract of the hardware-mutex arbiter (modelled from
the spec, §4.4).  `request` acquires exactly the requested bits that are
currently free — bit i of the acquired mask is set iff bit i is requested
and free, so a requested-but-held bit is reported contended (absent from
the acquired mask) — and the new status clears exactly the acquired bits
(free-and-not-requested bits stay free, held bits stay held);
`release` sets every requested bit back to free regardless of holder. -/
theorem C4_mutex_request_release (mask status i : Nat) :
    (mutex_request_op mask status).1.testBit i
      = (mask.testBit i && status.testBit i) ∧
    (mutex_request_op mask status).2.testBit i
      = (status.testBit i && !(mask.testBit i)) ∧
    (mutex_release_op mask status).testBit i
      = (status.testBit i || mask.testBit i) := by
  refine ⟨?_, ?_, ?_⟩
  · simp [mutex_request_op]
  · simp only [mutex_request_op, Nat.testBit_xor, Nat.testBit_and]
    cases mask.testBit i <;> cases status.testBit i <;> rfl
  · simp [mutex_release_op, Bool.or_comm]

/-- C6: the byte offsets of every named register field, computed from the
packed field layout of `struct hetero_hw_regs`, equal the published
layout, and the shared memory region starts at 0x1000. -/
theorem C6_register_offsets :
    offsetOf structOrder RegField.ipi_status = 0x00 ∧
    offsetOf structOrder RegField.ipi_trigger = 0x04 ∧
    offsetOf structOrder RegField.ipi_clear = 0x08 ∧
    offsetOf structOrder RegField.ipi_enable = 0x0C ∧
    offsetOf structOrder RegField.mbox_main_to_core0_cmd = 0x10 ∧
    offsetOf structOrder RegField.mbox_main_to_core0_data = 0x14 ∧
    offsetOf structOrder RegField.mbox_core0_to_main_status = 0x18 ∧
    offsetOf structOrder RegField.mbox_core0_to_main_resp = 0x1C ∧
    offsetOf structOrder RegField.mbox_main_to_core1_cmd = 0x20 ∧
    offsetOf structOrder RegField.mbox_main_to_core1_data = 0x24 ∧
    offsetOf structOrder RegField.mbox_core1_to_main_status = 0x28 ∧
    offsetOf structOrder RegField.mbox_core1_to_main_resp = 0x2C ∧
    offsetOf structOrder RegField.hw_mutex_request = 0x30 ∧
    offsetOf structOrder RegField.hw_mutex_status = 0x34 ∧
    offsetOf structOrder RegField.hw_mutex_release = 0x38 ∧
    shared_mem_offset = 0x1000 := by
  decide

/-- C8: every shared-memory byte at or past the end of the
identification string (42 bytes) is zero after initialization; the claim
that every byte is zero fails on the banner itself. -/
theorem C8_amended_shared_zero_after_banner (i : Nat)
    (h : bannerBytes.length ≤ i) :
    initDevice.shared_mem i = 0 := by
  have hb : bannerBytes.getD i 0 = 0 := by
    rw [List.getD_eq_getElem?_getD, List.getElem?_eq_none h]
    rfl
  simpa [initDevice, init_shared_mem] using hb

/-- C8 witness: byte 100 of the initialized shared memory is zero. -/
theorem C8_amended_witness :
    bannerBytes.length ≤ 100 ∧ initDevice.shared_mem 100 = 0 :=
  ⟨by decide, C8_amended_shared_zero_after_banner 100 (by decide)⟩

/-- C8 counterexample: byte 0 of the shared memory right after
initialization is 54 (ASCII code of the character 6, the first byte of
the identification string), not zero. -/
theorem C8_counterexample :
    initDevice.shared_mem 0 = 54 ∧ (54 : Nat) ≠ 0 := by
  decide

/-- C9: the reset ioctl is idempotent — running it twice produces exactly
the same device state (registers, counters and shared memory) as running
it once. -/
theorem C9_reset_idempotent (d : HeteroDevice) :
    hetero_reset (hetero_reset d) = hetero_reset d :=
  rfl

/-- C10: for a valid channel c, `send_ipi` stores `1 << c` into
`ipi_trigger` by plain assignment — so the other channel's trigger bit,
whatever it was, is cleared — while `ipi_status` receives `1 << c` OR'd
into its previous value. -/
theorem C10_trigger_overwrite (c : Nat) (d : HeteroDevice) (hc : c < 2) :
    (send_ipi c d).regs.ipi_trigger = 1 <<< c ∧
    ((send_ipi c d).regs.ipi_trigger).testBit (1 - c) = false ∧
    (send_ipi c d).regs.ipi_status = d.regs.ipi_status ||| (1 <<< c) := by
  interval_cases c
  · refine ⟨rfl, ?_, rfl⟩
    show Nat.testBit ((1 <<< 0) % UINT32_MOD) (1 - 0) = false
    decide
  · refine ⟨rfl, ?_, rfl⟩
    show Nat.testBit ((1 <<< 1) % UINT32_MOD) (1 - 1) = false
    decide

/-- C10 witness: after `send_ipi 1` the trigger register holds bit 1;
a following `send_ipi 0` leaves `ipi_trigger = 1` with bit 1 cleared,
while `ipi_status` accumulates by OR. -/
theorem C10_witness :
    (send_ipi 0 (send_ipi 1 initDevice)).regs.ipi_trigger = 1 <<< 0 ∧
    ((send_ipi 0 (send_ipi 1 initDevice)).regs.ipi_trigger).testBit (1 - 0) = false ∧
    (send_ipi 0 (send_ipi 1 initDevice)).regs.ipi_status
      = (send_ipi 1 initDevice).regs.ipi_status ||| (1 <<< 0) :=
  C10_trigger_overwrite 0 (send_ipi 1 initDevice) (by decide)

end Hetero
